import Mathlib

/- Verification of the openelec single-page-app controller
   (src/app/src/index.js): the view-state machine, the slider parameter
   store and filter-predicate construction, the dynamic step player, the
   national-to-local zoom workflow, and the run-model dispatch.

   Numbers handled by the JavaScript code are modelled as rationals
   (all values appearing in the code are exactly representable);
   the jQuery/Mapbox side effects are modelled as explicit effect values
   or as fields of returned view records. -/

namespace Openelec

/-! ## Scenario keys and parameter store

`sliderParams` in index.js is a mutable object keyed by scenario key
('plan-nat', 'plan-loc', 'find-nat') and parameter name.  Values stored by
the slide handler are either a scalar or a two-element `[lo, hi]` array
(stringified in JS, JSON.parsed on read); we model them parsed. -/

/-- The three scenario keys: 'plan-nat', 'plan-loc', 'find-nat'. -/
inductive ScenarioKey
  | planNat
  | planLoc
  | findNat
  deriving DecidableEq

/-- A stored slider parameter value: scalar for 'single' sliders, a
`[lo, hi]` pair for 'range' sliders (index.js stores the JSON string
'[from,toVal]'; reads JSON.parse it back). -/
inductive ParamValue
  | single (v : Rat)
  | range (lo hi : Rat)
  deriving DecidableEq

/-- The `sliderParams` store: scenario key and parameter name to value;
`none` models a key never written (JS `undefined`). -/
def Params : Type := ScenarioKey → String → Option ParamValue

/-- `sliderParams[state][name] = sliderVal` (the write in the slide
handler of `updateSliders`). -/
def setParam (p : Params) (k : ScenarioKey) (n : String) (v : ParamValue) : Params :=
  fun k' n' => if k' = k ∧ n' = n then some v else p k' n'

/-- Read a range parameter of the 'find-nat' scenario, as
`JSON.parse(params[name])` does in `hideClusters`; `none` models the
exception thrown when the parameter is missing or not a pair. -/
def rangeOf (p : Params) (n : String) : Option (Rat × Rat) :=
  match p ScenarioKey.findNat n with
  | some (ParamValue.range lo hi) => some (lo, hi)
  | _ => none

/-! ## Map filter expressions

Mapbox filters built by the controller are `['all', clause…]` where each
clause is `['>=', prop, v]`, `['<=', prop, v]` or `['==', prop, v]` over a
named numeric feature property. -/

/-- One comparison clause of a Mapbox `['all', …]` filter. -/
inductive FilterClause
  | ge (prop : String) (bound : Rat)
  | le (prop : String) (bound : Rat)
  | eq (prop : String) (bound : Rat)
  deriving DecidableEq

/-- Evaluate one clause against a feature's numeric properties. -/
def FilterClause.eval (props : String → Rat) : FilterClause → Bool
  | FilterClause.ge p b => decide (b ≤ props p)
  | FilterClause.le p b => decide (props p ≤ b)
  | FilterClause.eq p b => decide (props p = b)

/-- Evaluate an `['all', …]` filter: conjunction of its clauses. -/
def evalFilter (props : String → Rat) (f : List FilterClause) : Bool :=
  f.all (FilterClause.eval props)

/-- `hiddenFilters` built by `hideClusters` in index.js: ten inclusive
bound clauses, a `>=`/`<=` pair per range parameter, in the declared
order pop, grid, ntl, gdp, travel.  `none` models the JSON.parse
exception when a parameter was never initialised. -/
def hideClustersFilter (p : Params) : Option (List FilterClause) :=
  match rangeOf p "pop-range", rangeOf p "grid-range", rangeOf p "ntl-range",
        rangeOf p "gdp-range", rangeOf p "travel-range" with
  | some pop, some grid, some ntl, some gdp, some travel =>
      some [FilterClause.ge "pop" pop.1, FilterClause.le "pop" pop.2,
            FilterClause.ge "grid" grid.1, FilterClause.le "grid" grid.2,
            FilterClause.ge "ntl" ntl.1, FilterClause.le "ntl" ntl.2,
            FilterClause.ge "gdp" gdp.1, FilterClause.le "gdp" gdp.2,
            FilterClause.ge "travel" travel.1, FilterClause.le "travel" travel.2]
  | _, _, _, _, _ => none

/-! ## Run-model dispatch -/

/-- The active model selected by the 'plan' / 'find' buttons
(`activeModel` in index.js); `noMode` is its initial undefined state. -/
inductive Mode
  | noMode
  | plan
  | find
  deriving DecidableEq

/-- Which remote model endpoint an action requests
(`plan_loc`, `plan_nat`, `find_nat`). -/
inductive ModelRequest
  | planLoc
  | planNat
  | findNat
  deriving DecidableEq

/-- `runModel` in index.js: `if (zoomed) runPlanLoc(); else if
(activeModel == 'plan') runPlanNat(); else if (activeModel == 'find')
runFindNat();` — the request issued, `none` when no branch fires. -/
def runModel (zoomed : Bool) (activeModel : Mode) : Option ModelRequest :=
  if zoomed then some ModelRequest.planLoc
  else if activeModel = Mode.plan then some ModelRequest.planNat
  else if activeModel = Mode.find then some ModelRequest.findNat
  else none

/-! ## Slide handler effects

The per-slider `slide` callback installed by `updateSliders` computes the
display text and the stored value, writes `sliderParams[state][name]`,
and — only when `state == 'find-nat'` — calls `hideClusters()`, which
re-filters the already-loaded cluster layers with `map.setFilter`.
It performs no network request; model runs are issued only by
`runModel`/`runPlanNat`/`runPlanLoc`/`runFindNat`. -/

/-- An observable side effect of a UI handler. -/
inductive Effect
  | setText (text : String)
  | setMapFilter (layer : String) (filter : List FilterClause)
  | requestModel (m : ModelRequest)
  deriving DecidableEq

/-- `hideClusters` in index.js: apply the ten-clause filter to the
'clusters' and 'clusters-outline' layers (pure client-side `setFilter`
calls); `none` models the JSON.parse exception on missing parameters. -/
def hideClusters (p : Params) : Option (List Effect) :=
  (hideClustersFilter p).map fun f =>
    [Effect.setMapFilter "clusters" f, Effect.setMapFilter "clusters-outline" f]

/-- Slider kind from config.js: 'single' or 'range'. -/
inductive ParamKind
  | single
  | range
  deriving DecidableEq

/-- Static slider descriptor fields used by the slide handler
(parseFloat of config.js `min`, `max`, `step`). -/
structure SliderConfig where
  type : ParamKind
  min : Rat
  max : Rat
  step : Rat

/-- A bootstrap-slider `slide` event: `slideEvt.value` is `[lo, hi]` for
range sliders and a scalar for single sliders. -/
structure SlideEvent where
  lo : Rat
  hi : Rat
  single : Rat

/-- The stored `[from, toVal]` pair computed by the range branch of the
slide handler: `toVal = 1e19` when the upper handle sits at the slider's
declared max (the unbounded sentinel), else the handle value. -/
def slideRangeValue (maxV lo hi : Rat) : Rat × Rat :=
  (lo, if hi = maxV then (10000000000000000000 : Rat) else hi)

/-- The text `from + ' - ' + to` rendered by the range branch, where `to`
is replaced by '∞' when the upper handle sits at the declared max. -/
def slideRangeText (maxV lo hi : Rat) : String :=
  toString lo ++ " - " ++ (if hi = maxV then "∞" else toString hi)

/-- Result of one slide-handler invocation: the updated store, the text
written next to the slider, and the list of effects performed. -/
structure SlideResult where
  params : Params
  textVal : String
  effects : List Effect

/-- The `slide` callback of `updateSliders` in index.js, for the slider
`name` of scenario `state`: computes text and stored value (range
sliders get the `1e19`/'∞' substitution at the declared max), writes the
store, and for 'find-nat' immediately calls `hideClusters`.  `none`
models the exception when `hideClusters` hits a missing parameter. -/
def onSlide (state : ScenarioKey) (name : String) (cfg : SliderConfig)
    (ev : SlideEvent) (p : Params) : Option SlideResult :=
  match cfg.type with
  | ParamKind.range =>
      let stored := slideRangeValue cfg.max ev.lo ev.hi
      let textVal := slideRangeText cfg.max ev.lo ev.hi
      let p' := setParam p state name (ParamValue.range stored.1 stored.2)
      if state = ScenarioKey.findNat then
        (hideClusters p').map fun effs =>
          { params := p', textVal := textVal, effects := Effect.setText textVal :: effs }
      else
        some { params := p', textVal := textVal, effects := [Effect.setText textVal] }
  | ParamKind.single =>
      let textVal := toString ev.single
      let p' := setParam p state name (ParamValue.single ev.single)
      if state = ScenarioKey.findNat then
        (hideClusters p').map fun effs =>
          { params := p', textVal := textVal, effects := Effect.setText textVal :: effs }
      else
        some { params := p', textVal := textVal, effects := [Effect.setText textVal] }

/-- The 'find-nat' parameter store right after `updateSliders('find-nat')`
initialised every slider with its config.js default `'[0,1e14]'`. -/
def defaultFindNatParams : Params := fun k n =>
  if k = ScenarioKey.findNat ∧
     (n = "pop-range" ∨ n = "grid-range" ∨ n = "ntl-range" ∨
      n = "gdp-range" ∨ n = "travel-range")
  then some (ParamValue.range 0 (100000000000000 : Rat)) else none

/-! ## Dynamic step player -/

/-- State of the dynamic playback controls: `currentStep` and the
`#step-year` label. -/
structure DynState where
  step : Int
  year : Int
  deriving DecidableEq

/-- `prevStep` in index.js: guarded decrement, year label minus 5. -/
def prevStepDyn (s : DynState) : DynState :=
  if 1 < s.step then { step := s.step - 1, year := s.year - 5 } else s

/-- `nextStep` in index.js: guarded increment, year label plus 5. -/
def nextStepDyn (s : DynState) : DynState :=
  if s.step < 4 then { step := s.step + 1, year := s.year + 5 } else s

/-- Player states reachable from the state installed by a dynamic
`showPlanNat` (`currentStep = 1`, `$('#step-year').html(2025)`) under the
`prev`/`next` buttons. -/
inductive ReachableDyn : DynState → Prop
  | init : ReachableDyn { step := 1, year := 2025 }
  | next (s : DynState) : ReachableDyn s → ReachableDyn (nextStepDyn s)
  | prev (s : DynState) : ReachableDyn s → ReachableDyn (prevStepDyn s)

/-- Summary statistics returned by the modelling service
(`data.summary`): named numeric values. -/
def SummaryData : Type := String → Rat

/-- A summary table with every statistic zero, used as a concrete
sample input. -/
def zeroSummary : SummaryData := fun _ => 0

/-- A concrete sample per-step summary table whose steps differ: step j
reports every statistic as j. -/
def sampleDynPlan : Int → SummaryData := fun j _ => (j : Rat)

/-- What `dynamicPlanNat(step)` renders: the `['all', ['<=', 'stage',
step]]` network filter, the per-step paint key `'type_' + step`, and the
summary `dynamicSummary[step]`. -/
structure DynamicRender where
  networkFilter : List FilterClause
  paintKey : String
  displayedSummary : SummaryData

/-- `dynamicPlanNat` in index.js, reading the precomputed per-step
summaries of the last plan run. -/
def dynamicPlanNat (step : Int) (plan : Int → SummaryData) : DynamicRender :=
  { networkFilter := [FilterClause.le "stage" (step : Rat)],
    paintKey := "type_" ++ toString step,
    displayedSummary := plan step }

/-! ## showPlanNat and the dynamic deny-list -/

/-- `disabledDynamic` in index.js. -/
def disabledDynamic : List String := ["ethiopia", "kenya", "tanzania"]

/-- The `dynamic` flag computed at the top of `runPlanNat`: the
`#switch-dynamic` checkbox, forced off for deny-listed countries. -/
def runPlanNatDynamic (country : String) (switchDynamicChecked : Bool) : Bool :=
  if disabledDynamic.contains country then false else switchDynamicChecked

/-- The view produced by `showPlanNat`: the step player (present only in
dynamic mode, reset to step 1 / year 2025), the summary handed to
`updateSummary`, the network stage filter (`['==', 'stage', 1]` in
dynamic mode, cleared otherwise), and the `#dynamic-box` visibility. -/
structure PlanNatView where
  player : Option DynState
  displayedSummary : SummaryData
  networkFilter : Option (List FilterClause)
  dynamicBoxShown : Bool

/-- `showPlanNat(data)` in index.js: in dynamic mode `data.summary` is
the per-step table and step 1 is displayed; otherwise it is a plain
summary and the stage filter is removed. -/
def showPlanNat (dynamic : Bool) (summary : Int → SummaryData)
    (summaryPlain : SummaryData) : PlanNatView :=
  if dynamic then
    { player := some { step := 1, year := 2025 },
      displayedSummary := summary 1,
      networkFilter := some [FilterClause.eq "stage" 1],
      dynamicBoxShown := true }
  else
    { player := none,
      displayedSummary := summaryPlain,
      networkFilter := none,
      dynamicBoxShown := false }

/-! ## Zoom workflow: building-footprint admissibility -/

/-- Outcome names for the count gate in `prepPlanLoc`'s overpass
callback. -/
inductive ZoomOutcome
  | rejectedTooMany
  | rejectedTooFew
  | localReady
  deriving DecidableEq

/-- Observable result of the footprint-count gate: whether the run
control is left enabled (`disableClass('run-model', 'disabled')` vs
`enableClass`), whether the fetched buildings were bound to the
'buildings' source, and the `#map-announce` message. -/
structure FetchResult where
  outcome : ZoomOutcome
  runEnabled : Bool
  buildingsBound : Bool
  announce : Option String
  deriving DecidableEq

/-- The `$.get(overpassApiUrl, …)` callback in `prepPlanLoc`, as a
function of `numBuildings = osmDataAsJson.elements.length`. -/
def prepPlanLocFetch (numBuildings : Nat) : FetchResult :=
  if numBuildings > 2000 then
    { outcome := ZoomOutcome.rejectedTooMany, runEnabled := false,
      buildingsBound := false, announce := some "Choose a smaller village!" }
  else if numBuildings < 5 then
    { outcome := ZoomOutcome.rejectedTooFew, runEnabled := false,
      buildingsBound := false, announce := some "Choose a village with more buildings!" }
  else
    { outcome := ZoomOutcome.localReady, runEnabled := true,
      buildingsBound := true, announce := none }

/-! ## Top-level view-state machine

Fields of module state in index.js that the panel-switching functions
touch, plus the visibility of the four screens.  Button-availability
guards in `applyAction` are modelled from the spec (the repository's
index.html is not under src/): the country cards sit on the countries
screen, the map (and hence cluster clicks) is interactive on the explore
screen, and the mode/home/about buttons are always available. -/

/-- Panel visibility plus the module state of index.js relevant to
mode/scope/country tracking. -/
structure AppState where
  landing : Bool
  explorePanel : Bool
  aboutPanel : Bool
  countriesPanel : Bool
  activeModel : Mode
  zoomed : Bool
  country : Option String
  layersAdded : Bool
  deriving DecidableEq

/-- Initial module state: landing screen visible, `activeModel` and
`country` unset, `zoomed` falsy, no layers added. -/
def initState : AppState :=
  { landing := true, explorePanel := false, aboutPanel := false,
    countriesPanel := false, activeModel := Mode.noMode, zoomed := false,
    country := none, layersAdded := false }

/-- `chooseCountry()` in index.js: add map layers once, show the
countries screen, set `zoomed = false`. -/
def chooseCountry (s : AppState) : AppState :=
  { s with layersAdded := true,
           landing := false, explorePanel := false, aboutPanel := false,
           countriesPanel := true, zoomed := false }

/-- The panel changes shared by `plan`/`find` (country already chosen)
and `explore`: hide landing/about/countries, show explore. -/
def showExplorePanels (s : AppState) : AppState :=
  { s with landing := false, explorePanel := true, aboutPanel := false,
           countriesPanel := false }

/-- `plan()` in index.js: set the active model and `zoomed = false`, then
either fall through to `chooseCountry` (no country yet) or show the
explore screen. -/
def plan (s : AppState) : AppState :=
  let s1 := { s with activeModel := Mode.plan, zoomed := false }
  match s1.country with
  | none => chooseCountry s1
  | some _ => showExplorePanels s1

/-- `find()` in index.js, analogous to `plan()`. -/
def find (s : AppState) : AppState :=
  let s1 := { s with activeModel := Mode.find, zoomed := false }
  match s1.country with
  | none => chooseCountry s1
  | some _ => showExplorePanels s1

/-- `explore()` in index.js: record the clicked country card and show the
explore screen (it changes neither `activeModel` nor `zoomed`). -/
def explore (c : String) (s : AppState) : AppState :=
  showExplorePanels { s with country := some c }

/-- `clusterClick` → `prepPlanLoc()` in index.js: `zoomed = true`
(independently of the active model). -/
def clusterClick (s : AppState) : AppState :=
  { s with zoomed := true }

/-- `zoomToNat()` in index.js: restores opacity/popup/sidebar but changes
none of the fields tracked here (notably it leaves `zoomed` set). -/
def zoomToNat (s : AppState) : AppState := s

/-- `home()` in index.js. -/
def home (s : AppState) : AppState :=
  { s with landing := true, explorePanel := false, aboutPanel := false,
           countriesPanel := false }

/-- `about()` in index.js. -/
def about (s : AppState) : AppState :=
  { s with landing := false, explorePanel := false, aboutPanel := true,
           countriesPanel := false }

/-- A user action on the UI. -/
inductive Action
  | goHome
  | goAbout
  | goPlan
  | goFind
  | changeCountry
  | chooseCountryCard (c : String)
  | mapClusterClick
  | btnZoomOut
  deriving DecidableEq

/-- Apply one user action; an action whose button is not currently
available leaves the state unchanged.  Availability guards are modelled
from the spec: `changeCountry` and cluster clicks live on the explore
screen (cluster features exist once a country's data is loaded and the
layers were added), country cards on the countries screen, the zoom-out
button only while zoomed. -/
def applyAction (s : AppState) (a : Action) : AppState :=
  match a with
  | Action.goHome => home s
  | Action.goAbout => about s
  | Action.goPlan => plan s
  | Action.goFind => find s
  | Action.changeCountry => if s.explorePanel then chooseCountry s else s
  | Action.chooseCountryCard c => if s.countriesPanel then explore c s else s
  | Action.mapClusterClick =>
      if s.explorePanel && s.country.isSome && s.layersAdded then clusterClick s else s
  | Action.btnZoomOut => if s.zoomed then zoomToNat s else s

/-- Run a list of user actions from a state. -/
def runActions (s : AppState) (l : List Action) : AppState :=
  l.foldl applyAction s

/-- States reachable from page load by user actions. -/
inductive ReachableApp : AppState → Prop
  | init : ReachableApp initState
  | step (s : AppState) (a : Action) : ReachableApp s → ReachableApp (applyAction s a)

/-- The inductive invariant of the view-state machine: a mode has been
entered before the explore or countries screen is visible, a country is
selected while the explore screen is visible, and the zoomed state only
arises with a mode and a country. -/
def AppInv (s : AppState) : Prop :=
  (s.explorePanel = true → s.activeModel ≠ Mode.noMode ∧ s.country ≠ none) ∧
  (s.countriesPanel = true → s.activeModel ≠ Mode.noMode) ∧
  (s.zoomed = true → s.activeModel ≠ Mode.noMode ∧ s.country ≠ none)

/-! ## Helper lemmas -/

/-- Reading back the parameter just written. -/
theorem setParam_self (p : Params) (k : ScenarioKey) (n : String) (v : ParamValue) :
    setParam p k n v k n = some v := by
  simp [setParam]

/-- Writing one parameter leaves every other name unchanged. -/
theorem setParam_ne (p : Params) (k k' : ScenarioKey) (n n' : String) (v : ParamValue)
    (h : ¬(k' = k ∧ n' = n)) : setParam p k n v k' n' = p k' n' := by
  simp only [setParam, if_neg h]

/-- `rangeOf` on a stored range value. -/
theorem rangeOf_eq (p : Params) (n : String) (lo hi : Rat)
    (h : p ScenarioKey.findNat n = some (ParamValue.range lo hi)) :
    rangeOf p n = some (lo, hi) := by
  simp [rangeOf, h]

/-- A single `['<=', 'stage', r]` clause selects exactly the features
with stage at most `r`. -/
theorem evalFilter_le_stage (props : String → Rat) (r : Rat) :
    evalFilter props [FilterClause.le "stage" r] = true ↔ props "stage" ≤ r := by
  simp [evalFilter, FilterClause.eval]

/-- Reachable dynamic-player states keep the step index within 1..4. -/
theorem reachableDyn_bounds (s : DynState) (h : ReachableDyn s) :
    1 ≤ s.step ∧ s.step ≤ 4 := by
  induction h with
  | init => exact ⟨by norm_num, by norm_num⟩
  | next t ht ih =>
      unfold nextStepDyn
      by_cases hc : t.step < 4
      · rw [if_pos hc]
        exact ⟨by show (1 : Int) ≤ t.step + 1; omega, by show t.step + 1 ≤ 4; omega⟩
      · rw [if_neg hc]; exact ih
  | prev t ht ih =>
      unfold prevStepDyn
      by_cases hc : 1 < t.step
      · rw [if_pos hc]
        exact ⟨by show (1 : Int) ≤ t.step - 1; omega, by show t.step - 1 ≤ 4; omega⟩
      · rw [if_neg hc]; exact ih

/-! ## Claim theorems -/

/-- C1: the building-footprint count gate in `prepPlanLoc` resolves
exactly at these boundaries: 4 buildings are rejected as too few,
5 and 2000 lead to the local-ready state (buildings bound to the map
layer, run control enabled), 2001 is rejected as too many. -/
theorem zoom_count_boundaries :
    (prepPlanLocFetch 4).outcome = ZoomOutcome.rejectedTooFew ∧
    (prepPlanLocFetch 5).outcome = ZoomOutcome.localReady ∧
    (prepPlanLocFetch 5).buildingsBound = true ∧
    (prepPlanLocFetch 5).runEnabled = true ∧
    (prepPlanLocFetch 2000).outcome = ZoomOutcome.localReady ∧
    (prepPlanLocFetch 2000).buildingsBound = true ∧
    (prepPlanLocFetch 2000).runEnabled = true ∧
    (prepPlanLocFetch 2001).outcome = ZoomOutcome.rejectedTooMany := by
  decide

/-- C2 counterexample: the claim says every count of at least 2000 is
rejected as too many, but the code (`numBuildings > 2000`) accepts a
count of exactly 2000 into the local-ready state. -/
theorem building_count_2000_not_rejected :
    ¬ (∀ n : Nat, 2000 ≤ n →
        (prepPlanLocFetch n).outcome = ZoomOutcome.rejectedTooMany) := by
  intro h
  exact absurd (h 2000 (by norm_num)) (by decide)

/-- C2 (amended): the count gate rejects as too many exactly when the
count exceeds 2000, rejects as too few exactly when it is below 5, and
reaches the local-ready state exactly on the inclusive window
5 ≤ n ≤ 2000. -/
theorem prepPlanLoc_threshold_classification (n : Nat) :
    ((prepPlanLocFetch n).outcome = ZoomOutcome.rejectedTooMany ↔ 2000 < n) ∧
    ((prepPlanLocFetch n).outcome = ZoomOutcome.rejectedTooFew ↔ n < 5) ∧
    ((prepPlanLocFetch n).outcome = ZoomOutcome.localReady ↔ 5 ≤ n ∧ n ≤ 2000) := by
  unfold prepPlanLocFetch
  by_cases h1 : n > 2000
  · simp [h1]
    omega
  · by_cases h2 : n < 5
    · simp [h1, h2]
    · simp [h1, h2]
      omega

/-- Witness for the amended C2 classification at the boundary count. -/
theorem prepPlanLoc_threshold_classification_witness :
    ((prepPlanLocFetch 2000).outcome = ZoomOutcome.rejectedTooMany ↔ 2000 < 2000) ∧
    ((prepPlanLocFetch 2000).outcome = ZoomOutcome.rejectedTooFew ↔ 2000 < 5) ∧
    ((prepPlanLocFetch 2000).outcome = ZoomOutcome.localReady ↔ 5 ≤ 2000 ∧ 2000 ≤ 2000) :=
  prepPlanLoc_threshold_classification 2000

/-- C10: the run control dispatches on `zoomed` before the active mode —
zoomed invocations request the local plan model whatever the mode, the
national plan model is requested exactly when not zoomed in plan mode,
the find model exactly when not zoomed in find mode, and once a mode has
been entered exactly one request is issued. -/
theorem runModel_dispatch (zoomed : Bool) (m : Mode) :
    (runModel zoomed m = some ModelRequest.planLoc ↔ zoomed = true) ∧
    (runModel zoomed m = some ModelRequest.planNat ↔ zoomed = false ∧ m = Mode.plan) ∧
    (runModel zoomed m = some ModelRequest.findNat ↔ zoomed = false ∧ m = Mode.find) ∧
    (m ≠ Mode.noMode → (runModel zoomed m).isSome = true) := by
  cases zoomed <;> cases m <;> decide

/-- Witness for the run-model dispatch: zoomed with find mode active
still requests the local plan model. -/
theorem runModel_dispatch_witness :
    (runModel true Mode.find = some ModelRequest.planLoc ↔ true = true) ∧
    (runModel true Mode.find = some ModelRequest.planNat ↔ true = false ∧ Mode.find = Mode.plan) ∧
    (runModel true Mode.find = some ModelRequest.findNat ↔ true = false ∧ Mode.find = Mode.find) ∧
    (Mode.find ≠ Mode.noMode → (runModel true Mode.find).isSome = true) :=
  runModel_dispatch true Mode.find

/-- C4: on every reachable dynamic-player state the step index stays in
{1,2,3,4}; `prev` at step 1 and `next` at step 4 are no-ops, `prev`
above 1 decrements by exactly 1 and `next` below 4 increments by exactly
1 — no wraparound. -/
theorem step_player_bounded (s : DynState) (h : ReachableDyn s) :
    (1 ≤ s.step ∧ s.step ≤ 4) ∧
    (s.step = 1 → prevStepDyn s = s) ∧
    (s.step = 4 → nextStepDyn s = s) ∧
    (1 < s.step → (prevStepDyn s).step = s.step - 1) ∧
    (s.step < 4 → (nextStepDyn s).step = s.step + 1) := by
  refine ⟨reachableDyn_bounds s h, ?_, ?_, ?_, ?_⟩
  · intro h1; unfold prevStepDyn; rw [if_neg (by omega)]
  · intro h4; unfold nextStepDyn; rw [if_neg (by omega)]
  · intro hlt; unfold prevStepDyn; rw [if_pos hlt]
  · intro hlt; unfold nextStepDyn; rw [if_pos hlt]

/-- Witness for the step-player bounds at the initial player state. -/
theorem step_player_bounded_witness :
    ((1 ≤ (⟨1, 2025⟩ : DynState).step ∧ (⟨1, 2025⟩ : DynState).step ≤ 4) ∧
     ((⟨1, 2025⟩ : DynState).step = 1 → prevStepDyn ⟨1, 2025⟩ = ⟨1, 2025⟩) ∧
     ((⟨1, 2025⟩ : DynState).step = 4 → nextStepDyn ⟨1, 2025⟩ = ⟨1, 2025⟩) ∧
     (1 < (⟨1, 2025⟩ : DynState).step →
       (prevStepDyn ⟨1, 2025⟩).step = (⟨1, 2025⟩ : DynState).step - 1) ∧
     ((⟨1, 2025⟩ : DynState).step < 4 →
       (nextStepDyn ⟨1, 2025⟩).step = (⟨1, 2025⟩ : DynState).step + 1)) :=
  step_player_bounded ⟨1, 2025⟩ ReachableDyn.init

/-- C5: dynamic playback reveal is cumulative and monotone — the
`['<=', 'stage', step]` filter applied at step k selects a superset of
the features selected at step k-1 (a feature with stage tag s is
selected at step k exactly when s ≤ k), and every feature selected by
the `['==', 'stage', 1]` filter installed right after a dynamic plan run
is still selected by the step-1 filter. -/
theorem dynamic_reveal_cumulative (k : Int) (plan : Int → SummaryData)
    (plain : SummaryData) (props : String → Rat)
    (_h2 : 2 ≤ k) (_h4 : k ≤ 4) :
    (evalFilter props (dynamicPlanNat (k - 1) plan).networkFilter = true →
      evalFilter props (dynamicPlanNat k plan).networkFilter = true) ∧
    (evalFilter props (dynamicPlanNat k plan).networkFilter = true ↔
      props "stage" ≤ (k : Rat)) ∧
    (∀ f, (showPlanNat true plan plain).networkFilter = some f →
      evalFilter props f = true →
      evalFilter props (dynamicPlanNat 1 plan).networkFilter = true) := by
  have hnf : ∀ j : Int,
      (dynamicPlanNat j plan).networkFilter = [FilterClause.le "stage" (j : Rat)] :=
    fun j => rfl
  refine ⟨?_, ?_, ?_⟩
  · intro hprev
    rw [hnf, evalFilter_le_stage] at hprev
    rw [hnf, evalFilter_le_stage]
    have hcast : ((k - 1 : Int) : Rat) ≤ (k : Rat) := by
      push_cast
      linarith
    linarith
  · rw [hnf, evalFilter_le_stage]
  · intro f hf hev
    have hfeq : f = [FilterClause.eq "stage" 1] := by
      simp only [showPlanNat, if_pos] at hf
      exact (Option.some.inj hf).symm
    subst hfeq
    have h1 : props "stage" = 1 := by
      simpa [evalFilter, FilterClause.eval] using hev
    rw [hnf, evalFilter_le_stage, h1]
    norm_num

/-- Witness for the cumulative-reveal theorem at step 2 with a feature
of stage 1. -/
theorem dynamic_reveal_cumulative_witness :
    (2 : Int) ≤ 2 ∧ (2 : Int) ≤ 4 ∧
    ((evalFilter (fun _ => 1) (dynamicPlanNat (2 - 1) (fun _ _ => 0)).networkFilter = true →
      evalFilter (fun _ => 1) (dynamicPlanNat 2 (fun _ _ => 0)).networkFilter = true) ∧
     (evalFilter (fun _ => 1) (dynamicPlanNat 2 (fun _ _ => 0)).networkFilter = true ↔
      (fun _ : String => (1 : Rat)) "stage" ≤ ((2 : Int) : Rat)) ∧
     (∀ f, (showPlanNat true (fun _ _ => 0) (fun _ => 0)).networkFilter = some f →
      evalFilter (fun _ => 1) f = true →
      evalFilter (fun _ => 1) (dynamicPlanNat 1 (fun _ _ => 0)).networkFilter = true)) :=
  ⟨by norm_num, by norm_num,
   dynamic_reveal_cumulative 2 (fun _ _ => 0) (fun _ => 0) (fun _ => 1)
     (by norm_num) (by norm_num)⟩

/-- C7 counterexample: "kenya" is on the `disabledDynamic` deny-list, so
a plan run with the dynamic toggle checked still forces the dynamic flag
off — `showPlanNat` then installs no step player and hides the dynamic
box, so no 4-step dynamic plan (with its 2025..2040 year labels) exists
after the run, contrary to the claim. -/
theorem kenya_dynamic_forced_off :
    runPlanNatDynamic "kenya" true = false ∧
    (showPlanNat (runPlanNatDynamic "kenya" true)
      (fun _ _ => 0) (fun _ => 0)).player = none ∧
    (showPlanNat (runPlanNatDynamic "kenya" true)
      (fun _ _ => 0) (fun _ => 0)).dynamicBoxShown = false := by
  refine ⟨by decide, ?_, ?_⟩ <;> rfl

/-- C7 (amended): for a selected country that is not on the dynamic
deny-list, a plan run with the dynamic toggle checked produces the
dynamic player at step 1 displaying the plan's step-1 summary with year
label 2025; successive `next` calls progress the year label through
2030, 2035, 2040, stopping at step 4 (exactly 4 steps), each step k
displaying the plan's step-k summary — so steps 1 and 4 display
distinct plan entries whenever the plan's entries differ.  For "kenya"
(deny-listed) the dynamic flag is instead forced off. -/
theorem dynamic_plan_four_steps (c : String) (plan : Int → SummaryData)
    (plain : SummaryData) (hc : disabledDynamic.contains c = false) :
    runPlanNatDynamic c true = true ∧
    (showPlanNat (runPlanNatDynamic c true) plan plain).player =
      some { step := 1, year := 2025 } ∧
    (showPlanNat (runPlanNatDynamic c true) plan plain).displayedSummary = plan 1 ∧
    (showPlanNat (runPlanNatDynamic c true) plan plain).dynamicBoxShown = true ∧
    nextStepDyn { step := 1, year := 2025 } = { step := 2, year := 2030 } ∧
    nextStepDyn { step := 2, year := 2030 } = { step := 3, year := 2035 } ∧
    nextStepDyn { step := 3, year := 2035 } = { step := 4, year := 2040 } ∧
    nextStepDyn { step := 4, year := 2040 } = { step := 4, year := 2040 } ∧
    (dynamicPlanNat 1 plan).displayedSummary = plan 1 ∧
    (dynamicPlanNat 4 plan).displayedSummary = plan 4 ∧
    (plan 1 ≠ plan 4 →
      (showPlanNat (runPlanNatDynamic c true) plan plain).displayedSummary ≠
        (dynamicPlanNat 4 plan).displayedSummary) := by
  have hdyn : runPlanNatDynamic c true = true := by
    unfold runPlanNatDynamic
    rw [hc]
    simp
  rw [hdyn]
  refine ⟨rfl, by simp [showPlanNat], by simp [showPlanNat], by simp [showPlanNat],
    by decide, by decide, by decide, by decide, rfl, rfl, ?_⟩
  intro hne
  simpa [showPlanNat, dynamicPlanNat] using hne

/-- Witness for the amended dynamic-plan progression with the country
"burundi" (not deny-listed) and a plan whose step summaries differ. -/
theorem dynamic_plan_four_steps_witness :
    disabledDynamic.contains "burundi" = false ∧
    (runPlanNatDynamic "burundi" true = true ∧
     (showPlanNat (runPlanNatDynamic "burundi" true)
        sampleDynPlan zeroSummary).player = some { step := 1, year := 2025 } ∧
     (showPlanNat (runPlanNatDynamic "burundi" true)
        sampleDynPlan zeroSummary).displayedSummary = sampleDynPlan 1 ∧
     (showPlanNat (runPlanNatDynamic "burundi" true)
        sampleDynPlan zeroSummary).dynamicBoxShown = true ∧
     nextStepDyn { step := 1, year := 2025 } = { step := 2, year := 2030 } ∧
     nextStepDyn { step := 2, year := 2030 } = { step := 3, year := 2035 } ∧
     nextStepDyn { step := 3, year := 2035 } = { step := 4, year := 2040 } ∧
     nextStepDyn { step := 4, year := 2040 } = { step := 4, year := 2040 } ∧
     (dynamicPlanNat 1 sampleDynPlan).displayedSummary = sampleDynPlan 1 ∧
     (dynamicPlanNat 4 sampleDynPlan).displayedSummary = sampleDynPlan 4 ∧
     (sampleDynPlan 1 ≠ sampleDynPlan 4 →
       (showPlanNat (runPlanNatDynamic "burundi" true)
          sampleDynPlan zeroSummary).displayedSummary ≠
         (dynamicPlanNat 4 sampleDynPlan).displayedSummary)) :=
  ⟨by decide,
   dynamic_plan_four_steps "burundi" sampleDynPlan zeroSummary (by decide)⟩

/-- The invariant holds at page load. -/
theorem appInv_init : AppInv initState := by
  refine ⟨?_, ?_, ?_⟩ <;> intro h <;> simp [initState] at h

/-- Every user action preserves the view-state invariant. -/
theorem appInv_apply (s : AppState) (a : Action) (ih : AppInv s) :
    AppInv (applyAction s a) := by
  obtain ⟨hexp, hcty, hzoom⟩ := ih
  cases a with
  | goHome =>
      refine ⟨?_, ?_, ?_⟩ <;> intro h
      · simp [applyAction, home] at h
      · simp [applyAction, home] at h
      · simp only [applyAction, home] at h ⊢
        exact hzoom h
  | goAbout =>
      refine ⟨?_, ?_, ?_⟩ <;> intro h
      · simp [applyAction, about] at h
      · simp [applyAction, about] at h
      · simp only [applyAction, about] at h ⊢
        exact hzoom h
  | goPlan =>
      cases hcountry : s.country with
      | none =>
          refine ⟨?_, ?_, ?_⟩ <;> intro h
          · simp [applyAction, plan, hcountry, chooseCountry] at h
          · simp [applyAction, plan, hcountry, chooseCountry]
          · simp [applyAction, plan, hcountry, chooseCountry] at h
      | some c =>
          refine ⟨?_, ?_, ?_⟩ <;> intro h
          · simp [applyAction, plan, hcountry, showExplorePanels]
          · simp [applyAction, plan, hcountry, showExplorePanels] at h
          · simp [applyAction, plan, hcountry, showExplorePanels] at h
  | goFind =>
      cases hcountry : s.country with
      | none =>
          refine ⟨?_, ?_, ?_⟩ <;> intro h
          · simp [applyAction, find, hcountry, chooseCountry] at h
          · simp [applyAction, find, hcountry, chooseCountry]
          · simp [applyAction, find, hcountry, chooseCountry] at h
      | some c =>
          refine ⟨?_, ?_, ?_⟩ <;> intro h
          · simp [applyAction, find, hcountry, showExplorePanels]
          · simp [applyAction, find, hcountry, showExplorePanels] at h
          · simp [applyAction, find, hcountry, showExplorePanels] at h
  | changeCountry =>
      by_cases hg : s.explorePanel = true
      · refine ⟨?_, ?_, ?_⟩ <;> intro h
        · simp [applyAction, hg, chooseCountry] at h
        · simp only [applyAction, hg, if_pos, chooseCountry]
          exact (hexp hg).1
        · simp [applyAction, hg, chooseCountry] at h
      · simp only [applyAction, if_neg hg]
        exact ⟨hexp, hcty, hzoom⟩
  | chooseCountryCard c =>
      by_cases hg : s.countriesPanel = true
      · refine ⟨?_, ?_, ?_⟩ <;> intro h
        · simp only [applyAction, hg, if_pos, explore, showExplorePanels]
          exact ⟨hcty hg, by simp⟩
        · simp [applyAction, hg, explore, showExplorePanels] at h
        · simp only [applyAction, hg, if_pos, explore, showExplorePanels] at h ⊢
          exact ⟨(hzoom h).1, by simp⟩
      · simp only [applyAction, if_neg hg]
        exact ⟨hexp, hcty, hzoom⟩
  | mapClusterClick =>
      by_cases hg : (s.explorePanel && s.country.isSome && s.layersAdded) = true
      · have hparts := hg
        simp only [Bool.and_eq_true] at hparts
        refine ⟨?_, ?_, ?_⟩ <;> intro h
        · simp only [applyAction, hg, if_pos, clusterClick] at h ⊢
          exact hexp h
        · simp only [applyAction, hg, if_pos, clusterClick] at h ⊢
          exact hcty h
        · simp only [applyAction, hg, if_pos, clusterClick]
          exact hexp hparts.1.1
      · simp only [applyAction, if_neg hg]
        exact ⟨hexp, hcty, hzoom⟩
  | btnZoomOut =>
      by_cases hg : s.zoomed = true
      · simp only [applyAction, hg, if_pos, zoomToNat]
        exact ⟨hexp, hcty, hzoom⟩
      · simp only [applyAction, if_neg hg]
        exact ⟨hexp, hcty, hzoom⟩

/-- Every reachable view state satisfies the invariant. -/
theorem reachableApp_inv (s : AppState) (h : ReachableApp s) : AppInv s := by
  induction h with
  | init => exact appInv_init
  | step t a ht ih => exact appInv_apply t a ih

/-- C8 counterexample: from the landing page, entering find mode,
choosing a country card and clicking a cluster reaches a state with
local scope (`zoomed = true`) while the active model is still `find` —
local scope is not restricted to plan mode, because `clusterClick` /
`prepPlanLoc` sets `zoomed` without consulting `activeModel`. -/
theorem find_mode_reaches_local :
    ReachableApp (runActions initState
      [Action.goFind, Action.chooseCountryCard "burundi", Action.mapClusterClick]) ∧
    (runActions initState
      [Action.goFind, Action.chooseCountryCard "burundi", Action.mapClusterClick]).zoomed
      = true ∧
    (runActions initState
      [Action.goFind, Action.chooseCountryCard "burundi", Action.mapClusterClick]).activeModel
      = Mode.find := by
  refine ⟨?_, by decide, by decide⟩
  exact ReachableApp.step _ Action.mapClusterClick
    (ReachableApp.step _ (Action.chooseCountryCard "burundi")
      (ReachableApp.step _ Action.goFind ReachableApp.init))

/-- C8 (amended): local scope requires a mode and a country but not
specifically plan mode — in every reachable view state, `zoomed = true`
implies the active model is `plan` or `find` (a mode was entered before
the map became clickable) and a country is selected; cluster clicks in
find mode reach local scope just as in plan mode. -/
theorem local_scope_requires_mode (s : AppState) (h : ReachableApp s)
    (hz : s.zoomed = true) :
    (s.activeModel = Mode.plan ∨ s.activeModel = Mode.find) ∧ s.country ≠ none := by
  obtain ⟨hmode, hcountry⟩ := (reachableApp_inv s h).2.2 hz
  refine ⟨?_, hcountry⟩
  cases hm : s.activeModel with
  | noMode => exact absurd hm hmode
  | plan => exact Or.inl rfl
  | find => exact Or.inr rfl

/-- Witness for the amended local-scope invariant on a concrete
reachable zoomed state (plan mode, country "ghana"). -/
theorem local_scope_requires_mode_witness :
    ((runActions initState
      [Action.goPlan, Action.chooseCountryCard "ghana", Action.mapClusterClick]).activeModel
        = Mode.plan ∨
     (runActions initState
      [Action.goPlan, Action.chooseCountryCard "ghana", Action.mapClusterClick]).activeModel
        = Mode.find) ∧
    (runActions initState
      [Action.goPlan, Action.chooseCountryCard "ghana", Action.mapClusterClick]).country
      ≠ none :=
  local_scope_requires_mode _
    (ReachableApp.step _ Action.mapClusterClick
      (ReachableApp.step _ (Action.chooseCountryCard "ghana")
        (ReachableApp.step _ Action.goPlan ReachableApp.init)))
    (by decide)

/-- C3: with all five range parameters initialised, `hideClusters`
builds exactly ten inclusive bound clauses — a `>=` lower and `<=` upper
clause per parameter over the properties pop, grid, ntl, gdp, travel, in
that fixed order — and rewriting any one parameter changes only its own
two clauses. -/
theorem find_filter_ten_clauses (p : Params)
    (plo phi glo ghi nlo nhi dlo dhi tlo thi : Rat)
    (hp : p ScenarioKey.findNat "pop-range" = some (ParamValue.range plo phi))
    (hg : p ScenarioKey.findNat "grid-range" = some (ParamValue.range glo ghi))
    (hn : p ScenarioKey.findNat "ntl-range" = some (ParamValue.range nlo nhi))
    (hd : p ScenarioKey.findNat "gdp-range" = some (ParamValue.range dlo dhi))
    (ht : p ScenarioKey.findNat "travel-range" = some (ParamValue.range tlo thi)) :
    hideClustersFilter p = some
      [FilterClause.ge "pop" plo, FilterClause.le "pop" phi,
       FilterClause.ge "grid" glo, FilterClause.le "grid" ghi,
       FilterClause.ge "ntl" nlo, FilterClause.le "ntl" nhi,
       FilterClause.ge "gdp" dlo, FilterClause.le "gdp" dhi,
       FilterClause.ge "travel" tlo, FilterClause.le "travel" thi] ∧
    (∀ f, hideClustersFilter p = some f → f.length = 10) ∧
    (∀ lo hi, hideClustersFilter
        (setParam p ScenarioKey.findNat "pop-range" (ParamValue.range lo hi)) = some
      [FilterClause.ge "pop" lo, FilterClause.le "pop" hi,
       FilterClause.ge "grid" glo, FilterClause.le "grid" ghi,
       FilterClause.ge "ntl" nlo, FilterClause.le "ntl" nhi,
       FilterClause.ge "gdp" dlo, FilterClause.le "gdp" dhi,
       FilterClause.ge "travel" tlo, FilterClause.le "travel" thi]) ∧
    (∀ lo hi, hideClustersFilter
        (setParam p ScenarioKey.findNat "grid-range" (ParamValue.range lo hi)) = some
      [FilterClause.ge "pop" plo, FilterClause.le "pop" phi,
       FilterClause.ge "grid" lo, FilterClause.le "grid" hi,
       FilterClause.ge "ntl" nlo, FilterClause.le "ntl" nhi,
       FilterClause.ge "gdp" dlo, FilterClause.le "gdp" dhi,
       FilterClause.ge "travel" tlo, FilterClause.le "travel" thi]) ∧
    (∀ lo hi, hideClustersFilter
        (setParam p ScenarioKey.findNat "ntl-range" (ParamValue.range lo hi)) = some
      [FilterClause.ge "pop" plo, FilterClause.le "pop" phi,
       FilterClause.ge "grid" glo, FilterClause.le "grid" ghi,
       FilterClause.ge "ntl" lo, FilterClause.le "ntl" hi,
       FilterClause.ge "gdp" dlo, FilterClause.le "gdp" dhi,
       FilterClause.ge "travel" tlo, FilterClause.le "travel" thi]) ∧
    (∀ lo hi, hideClustersFilter
        (setParam p ScenarioKey.findNat "gdp-range" (ParamValue.range lo hi)) = some
      [FilterClause.ge "pop" plo, FilterClause.le "pop" phi,
       FilterClause.ge "grid" glo, FilterClause.le "grid" ghi,
       FilterClause.ge "ntl" nlo, FilterClause.le "ntl" nhi,
       FilterClause.ge "gdp" lo, FilterClause.le "gdp" hi,
       FilterClause.ge "travel" tlo, FilterClause.le "travel" thi]) ∧
    (∀ lo hi, hideClustersFilter
        (setParam p ScenarioKey.findNat "travel-range" (ParamValue.range lo hi)) = some
      [FilterClause.ge "pop" plo, FilterClause.le "pop" phi,
       FilterClause.ge "grid" glo, FilterClause.le "grid" ghi,
       FilterClause.ge "ntl" nlo, FilterClause.le "ntl" nhi,
       FilterClause.ge "gdp" dlo, FilterClause.le "gdp" dhi,
       FilterClause.ge "travel" lo, FilterClause.le "travel" hi]) := by
  have build : ∀ (q : Params) (a1 a2 b1 b2 c1 c2 d1 d2 e1 e2 : Rat),
      q ScenarioKey.findNat "pop-range" = some (ParamValue.range a1 a2) →
      q ScenarioKey.findNat "grid-range" = some (ParamValue.range b1 b2) →
      q ScenarioKey.findNat "ntl-range" = some (ParamValue.range c1 c2) →
      q ScenarioKey.findNat "gdp-range" = some (ParamValue.range d1 d2) →
      q ScenarioKey.findNat "travel-range" = some (ParamValue.range e1 e2) →
      hideClustersFilter q = some
        [FilterClause.ge "pop" a1, FilterClause.le "pop" a2,
         FilterClause.ge "grid" b1, FilterClause.le "grid" b2,
         FilterClause.ge "ntl" c1, FilterClause.le "ntl" c2,
         FilterClause.ge "gdp" d1, FilterClause.le "gdp" d2,
         FilterClause.ge "travel" e1, FilterClause.le "travel" e2] := by
    intro q a1 a2 b1 b2 c1 c2 d1 d2 e1 e2 h1 h2 h3 h4 h5
    unfold hideClustersFilter
    rw [rangeOf_eq q _ _ _ h1, rangeOf_eq q _ _ _ h2, rangeOf_eq q _ _ _ h3,
        rangeOf_eq q _ _ _ h4, rangeOf_eq q _ _ _ h5]
  have hmain := build p plo phi glo ghi nlo nhi dlo dhi tlo thi hp hg hn hd ht
  refine ⟨hmain, ?_, ?_, ?_, ?_, ?_, ?_⟩
  · intro f hf
    rw [hmain] at hf
    rw [← Option.some.inj hf]
    rfl
  · intro lo hi
    exact build _ lo hi glo ghi nlo nhi dlo dhi tlo thi
      (setParam_self p ScenarioKey.findNat "pop-range" _)
      (by rw [setParam_ne _ _ _ _ _ _ (by decide)]; exact hg)
      (by rw [setParam_ne _ _ _ _ _ _ (by decide)]; exact hn)
      (by rw [setParam_ne _ _ _ _ _ _ (by decide)]; exact hd)
      (by rw [setParam_ne _ _ _ _ _ _ (by decide)]; exact ht)
  · intro lo hi
    exact build _ plo phi lo hi nlo nhi dlo dhi tlo thi
      (by rw [setParam_ne _ _ _ _ _ _ (by decide)]; exact hp)
      (setParam_self p ScenarioKey.findNat "grid-range" _)
      (by rw [setParam_ne _ _ _ _ _ _ (by decide)]; exact hn)
      (by rw [setParam_ne _ _ _ _ _ _ (by decide)]; exact hd)
      (by rw [setParam_ne _ _ _ _ _ _ (by decide)]; exact ht)
  · intro lo hi
    exact build _ plo phi glo ghi lo hi dlo dhi tlo thi
      (by rw [setParam_ne _ _ _ _ _ _ (by decide)]; exact hp)
      (by rw [setParam_ne _ _ _ _ _ _ (by decide)]; exact hg)
      (setParam_self p ScenarioKey.findNat "ntl-range" _)
      (by rw [setParam_ne _ _ _ _ _ _ (by decide)]; exact hd)
      (by rw [setParam_ne _ _ _ _ _ _ (by decide)]; exact ht)
  · intro lo hi
    exact build _ plo phi glo ghi nlo nhi lo hi tlo thi
      (by rw [setParam_ne _ _ _ _ _ _ (by decide)]; exact hp)
      (by rw [setParam_ne _ _ _ _ _ _ (by decide)]; exact hg)
      (by rw [setParam_ne _ _ _ _ _ _ (by decide)]; exact hn)
      (setParam_self p ScenarioKey.findNat "gdp-range" _)
      (by rw [setParam_ne _ _ _ _ _ _ (by decide)]; exact ht)
  · intro lo hi
    exact build _ plo phi glo ghi nlo nhi dlo dhi lo hi
      (by rw [setParam_ne _ _ _ _ _ _ (by decide)]; exact hp)
      (by rw [setParam_ne _ _ _ _ _ _ (by decide)]; exact hg)
      (by rw [setParam_ne _ _ _ _ _ _ (by decide)]; exact hn)
      (by rw [setParam_ne _ _ _ _ _ _ (by decide)]; exact hd)
      (setParam_self p ScenarioKey.findNat "travel-range" _)

/-- Witness for the ten-clause filter build on the default 'find-nat'
parameter store. -/
theorem find_filter_ten_clauses_witness :
    defaultFindNatParams ScenarioKey.findNat "pop-range" =
      some (ParamValue.range 0 (100000000000000 : Rat)) ∧
    hideClustersFilter defaultFindNatParams = some
      [FilterClause.ge "pop" 0, FilterClause.le "pop" (100000000000000 : Rat),
       FilterClause.ge "grid" 0, FilterClause.le "grid" (100000000000000 : Rat),
       FilterClause.ge "ntl" 0, FilterClause.le "ntl" (100000000000000 : Rat),
       FilterClause.ge "gdp" 0, FilterClause.le "gdp" (100000000000000 : Rat),
       FilterClause.ge "travel" 0, FilterClause.le "travel" (100000000000000 : Rat)] :=
  ⟨by decide,
   (find_filter_ten_clauses defaultFindNatParams
      0 (100000000000000 : Rat) 0 (100000000000000 : Rat) 0 (100000000000000 : Rat) 0 (100000000000000 : Rat) 0 (100000000000000 : Rat)
      (by decide) (by decide) (by decide) (by decide) (by decide)).1⟩

/-- Characterisation of one slide-handler invocation: the store gains
exactly the parameter written, the effects are the text update plus —
only for 'find-nat' — the two cluster re-filter calls, and for range
sliders the stored value and text are the `slideRangeValue` /
`slideRangeText` of the event. -/
theorem onSlide_spec (state : ScenarioKey) (name : String) (cfg : SliderConfig)
    (ev : SlideEvent) (p : Params) (res : SlideResult)
    (h : onSlide state name cfg ev p = some res) :
    ∃ v t, res.params = setParam p state name v ∧ res.textVal = t ∧
      ((state = ScenarioKey.findNat ∧
        ∃ f, hideClustersFilter (setParam p state name v) = some f ∧
          res.effects = [Effect.setText t, Effect.setMapFilter "clusters" f,
                         Effect.setMapFilter "clusters-outline" f]) ∨
       (state ≠ ScenarioKey.findNat ∧ res.effects = [Effect.setText t])) ∧
      (cfg.type = ParamKind.range →
        v = ParamValue.range (slideRangeValue cfg.max ev.lo ev.hi).1
              (slideRangeValue cfg.max ev.lo ev.hi).2 ∧
        t = slideRangeText cfg.max ev.lo ev.hi) := by
  obtain ⟨ctype, cmin, cmax, cstep⟩ := cfg
  unfold onSlide at h
  cases ctype with
  | range =>
      dsimp only at h
      by_cases hs : state = ScenarioKey.findNat
      · rw [if_pos hs] at h
        unfold hideClusters at h
        cases hf : hideClustersFilter (setParam p state name
            (ParamValue.range (slideRangeValue cmax ev.lo ev.hi).1
              (slideRangeValue cmax ev.lo ev.hi).2)) with
        | none => rw [hf] at h; simp at h
        | some f =>
            rw [hf] at h
            simp only [Option.map_some'] at h
            have hres := Option.some.inj h
            subst hres
            exact ⟨_, _, rfl, rfl, Or.inl ⟨hs, f, hf, rfl⟩, fun _ => ⟨rfl, rfl⟩⟩
      · rw [if_neg hs] at h
        have hres := Option.some.inj h
        subst hres
        exact ⟨_, _, rfl, rfl, Or.inr ⟨hs, rfl⟩, fun _ => ⟨rfl, rfl⟩⟩
  | single =>
      dsimp only at h
      by_cases hs : state = ScenarioKey.findNat
      · rw [if_pos hs] at h
        unfold hideClusters at h
        cases hf : hideClustersFilter (setParam p state name
            (ParamValue.single ev.single)) with
        | none => rw [hf] at h; simp at h
        | some f =>
            rw [hf] at h
            simp only [Option.map_some'] at h
            have hres := Option.some.inj h
            subst hres
            exact ⟨_, _, rfl, rfl, Or.inl ⟨hs, f, hf, rfl⟩,
              fun hty => by simp at hty⟩
      · rw [if_neg hs] at h
        have hres := Option.some.inj h
        subst hres
        exact ⟨_, _, rfl, rfl, Or.inr ⟨hs, rfl⟩, fun hty => by simp at hty⟩

/-- C6: a slider change in the 'find-nat' scenario immediately performs
the synchronous client-side cluster re-filter (two `setFilter` effects
computed purely from the updated store) and issues no model request; in
every other scenario a slider change performs only the text update —
never a re-filter, never a model request.  Model requests arise only
from `runModel`. -/
theorem slider_refilter_policy (state : ScenarioKey) (name : String) (cfg : SliderConfig)
    (ev : SlideEvent) (p : Params) (res : SlideResult)
    (h : onSlide state name cfg ev p = some res) :
    (state = ScenarioKey.findNat →
      ∃ f, hideClustersFilter res.params = some f ∧
        res.effects = [Effect.setText res.textVal, Effect.setMapFilter "clusters" f,
                       Effect.setMapFilter "clusters-outline" f]) ∧
    (state ≠ ScenarioKey.findNat → res.effects = [Effect.setText res.textVal]) ∧
    (∀ m, Effect.requestModel m ∉ res.effects) := by
  obtain ⟨v, t, hparams, htext, hcase, _⟩ := onSlide_spec state name cfg ev p res h
  refine ⟨?_, ?_, ?_⟩
  · intro hs
    rcases hcase with ⟨_, f, hf, heff⟩ | ⟨hns, _⟩
    · refine ⟨f, ?_, ?_⟩
      · rw [hparams]; exact hf
      · rw [heff, htext]
    · exact absurd hs hns
  · intro hns
    rcases hcase with ⟨hs, _⟩ | ⟨_, heff⟩
    · exact absurd hs hns
    · rw [heff, htext]
  · intro m
    rcases hcase with ⟨_, f, hf, heff⟩ | ⟨_, heff⟩ <;> rw [heff] <;> simp

/-- Witness for the slider re-filter policy: moving the 'find-nat'
population slider to [100, 5000] re-filters the clusters client-side. -/
theorem slider_refilter_policy_witness :
    ∃ res : SlideResult,
      onSlide ScenarioKey.findNat "pop-range"
          { type := ParamKind.range, min := 0, max := 10000, step := 100 }
          { lo := 100, hi := 5000, single := 0 } defaultFindNatParams = some res ∧
      ((ScenarioKey.findNat = ScenarioKey.findNat →
        ∃ f, hideClustersFilter res.params = some f ∧
          res.effects = [Effect.setText res.textVal, Effect.setMapFilter "clusters" f,
                         Effect.setMapFilter "clusters-outline" f]) ∧
       (ScenarioKey.findNat ≠ ScenarioKey.findNat →
         res.effects = [Effect.setText res.textVal]) ∧
       (∀ m, Effect.requestModel m ∉ res.effects)) := by
  have h : onSlide ScenarioKey.findNat "pop-range"
      { type := ParamKind.range, min := 0, max := 10000, step := 100 }
      { lo := 100, hi := 5000, single := 0 } defaultFindNatParams = some
      { params := setParam defaultFindNatParams ScenarioKey.findNat "pop-range"
          (ParamValue.range 100 5000),
        textVal := "100 - 5000",
        effects := [Effect.setText "100 - 5000",
          Effect.setMapFilter "clusters"
            [FilterClause.ge "pop" 100, FilterClause.le "pop" 5000,
             FilterClause.ge "grid" 0, FilterClause.le "grid" (100000000000000 : Rat),
             FilterClause.ge "ntl" 0, FilterClause.le "ntl" (100000000000000 : Rat),
             FilterClause.ge "gdp" 0, FilterClause.le "gdp" (100000000000000 : Rat),
             FilterClause.ge "travel" 0, FilterClause.le "travel" (100000000000000 : Rat)],
          Effect.setMapFilter "clusters-outline"
            [FilterClause.ge "pop" 100, FilterClause.le "pop" 5000,
             FilterClause.ge "grid" 0, FilterClause.le "grid" (100000000000000 : Rat),
             FilterClause.ge "ntl" 0, FilterClause.le "ntl" (100000000000000 : Rat),
             FilterClause.ge "gdp" 0, FilterClause.le "gdp" (100000000000000 : Rat),
             FilterClause.ge "travel" 0, FilterClause.le "travel" (100000000000000 : Rat)]] } := by
    rfl
  exact ⟨_, h, slider_refilter_policy _ _ _ _ _ _ h⟩

/-- C9: every slide on a range slider stores an interval with lo ≤ hi
(given the slider widget's contract that the handles are ordered within
the declared bounds), and dragging the upper handle to the declared max
stores the unbounded sentinel 1e19 while the rendered upper-bound text
shows '∞'. -/
theorem slider_range_set_invariant (state : ScenarioKey) (name : String)
    (cfg : SliderConfig) (ev : SlideEvent) (p : Params) (res : SlideResult)
    (h : onSlide state name cfg ev p = some res)
    (htype : cfg.type = ParamKind.range)
    (hord : ev.lo ≤ ev.hi) (hhi : ev.hi ≤ cfg.max) (hbig : cfg.max ≤ (10000000000000000000 : Rat)) :
    res.params state name =
      some (ParamValue.range (slideRangeValue cfg.max ev.lo ev.hi).1
        (slideRangeValue cfg.max ev.lo ev.hi).2) ∧
    (slideRangeValue cfg.max ev.lo ev.hi).1 ≤ (slideRangeValue cfg.max ev.lo ev.hi).2 ∧
    (ev.hi = cfg.max →
      (slideRangeValue cfg.max ev.lo ev.hi).2 = (10000000000000000000 : Rat) ∧
      res.textVal = toString ev.lo ++ " - " ++ "∞") := by
  obtain ⟨v, t, hparams, htext, _, hrange⟩ := onSlide_spec state name cfg ev p res h
  obtain ⟨hv, ht⟩ := hrange htype
  subst hv
  subst ht
  have h1 : (slideRangeValue cfg.max ev.lo ev.hi).1 = ev.lo := rfl
  have h2 : (slideRangeValue cfg.max ev.lo ev.hi).2
      = if ev.hi = cfg.max then (10000000000000000000 : Rat) else ev.hi := rfl
  refine ⟨?_, ?_, ?_⟩
  · rw [hparams]
    exact setParam_self p state name _
  · rw [h1, h2]
    by_cases hm : ev.hi = cfg.max
    · rw [if_pos hm]
      calc ev.lo ≤ ev.hi := hord
        _ ≤ cfg.max := hhi
        _ ≤ (10000000000000000000 : Rat) := hbig
    · rw [if_neg hm]
      exact hord
  · intro hm
    refine ⟨by rw [h2, if_pos hm], ?_⟩
    rw [htext]
    unfold slideRangeText
    rw [if_pos hm]

/-- Witness for the range-slider invariant: dragging the 'find-nat'
population slider's upper handle to its declared max 10000 stores the
sentinel 1e19 and renders '∞'. -/
theorem slider_range_set_invariant_witness :
    ∃ res : SlideResult,
      onSlide ScenarioKey.findNat "pop-range"
          { type := ParamKind.range, min := 0, max := 10000, step := 100 }
          { lo := 0, hi := 10000, single := 0 } defaultFindNatParams = some res ∧
      (res.params ScenarioKey.findNat "pop-range" =
        some (ParamValue.range (slideRangeValue 10000 0 10000).1
          (slideRangeValue 10000 0 10000).2) ∧
       (slideRangeValue 10000 0 10000).1 ≤ (slideRangeValue 10000 0 10000).2 ∧
       ((10000 : Rat) = 10000 →
         (slideRangeValue 10000 0 10000).2 = (10000000000000000000 : Rat) ∧
         res.textVal = toString (0 : Rat) ++ " - " ++ "∞")) := by
  have h : onSlide ScenarioKey.findNat "pop-range"
      { type := ParamKind.range, min := 0, max := 10000, step := 100 }
      { lo := 0, hi := 10000, single := 0 } defaultFindNatParams = some
      { params := setParam defaultFindNatParams ScenarioKey.findNat "pop-range"
          (ParamValue.range 0 (10000000000000000000 : Rat)),
        textVal := "0 - ∞",
        effects := [Effect.setText "0 - ∞",
          Effect.setMapFilter "clusters"
            [FilterClause.ge "pop" 0, FilterClause.le "pop" (10000000000000000000 : Rat),
             FilterClause.ge "grid" 0, FilterClause.le "grid" (100000000000000 : Rat),
             FilterClause.ge "ntl" 0, FilterClause.le "ntl" (100000000000000 : Rat),
             FilterClause.ge "gdp" 0, FilterClause.le "gdp" (100000000000000 : Rat),
             FilterClause.ge "travel" 0, FilterClause.le "travel" (100000000000000 : Rat)],
          Effect.setMapFilter "clusters-outline"
            [FilterClause.ge "pop" 0, FilterClause.le "pop" (10000000000000000000 : Rat),
             FilterClause.ge "grid" 0, FilterClause.le "grid" (100000000000000 : Rat),
             FilterClause.ge "ntl" 0, FilterClause.le "ntl" (100000000000000 : Rat),
             FilterClause.ge "gdp" 0, FilterClause.le "gdp" (100000000000000 : Rat),
             FilterClause.ge "travel" 0, FilterClause.le "travel" (100000000000000 : Rat)]] } := by
    rfl
  exact ⟨_, h, slider_range_set_invariant _ _ _ _ _ _ h rfl
    (by norm_num) (by norm_num) (by norm_num)⟩

end Openelec
